import Mathlib

/-!
Verification of the job lifecycle and result-normalization pipeline of an
OCR playground frontend.  The definitions below are shallow embeddings of
the TypeScript source: the PDF rasterizer helper, the result-envelope
extraction, the polling step, the submission flow, the job-list
operations, the overlay geometry of the result view, and the group-wise
line redistribution of the blocks view.
-/

namespace OcrLab

/-! ## PDF rasterizer (`renderPdfToImage`) -/

/-- A successfully loaded PDF document: its page count and, for each page
number, the raster produced by rendering that page at the fixed 2x scale. -/
structure PdfDocM where
  numPages : Nat
  pageImage : Int → String
deriving Inhabited

/-- `pdf.getPage(n)` of the PDF library: succeeds exactly for page numbers
in `1 ≤ n ≤ numPages`, otherwise it throws (modelled as `none`, which the
source's `catch` turns into `{ dataUrl: null, totalPages: 0 }`). -/
def PdfDocM.getPage (pdf : PdfDocM) (p : Int) : Option String :=
  if 1 ≤ p ∧ p ≤ (pdf.numPages : Int) then some (pdf.pageImage p) else none

/-- `renderPdfToImage(arrayBuffer, pageNumber)`.  `doc` is `none` when the
loading task fails; `ctxOk` is whether `canvas.getContext('2d')` returned a
context.  The source clamps the requested page with
`Math.max(1, Math.min(pageNumber, totalPages))` before calling `getPage`. -/
def renderPdfToImage (doc : Option PdfDocM) (pageNumber : Int) (ctxOk : Bool) :
    Option String × Nat :=
  match doc with
  | none => (none, 0)
  | some pdf =>
    let totalPages := pdf.numPages
    let validPageNum : Int := max 1 (min pageNumber (totalPages : Int))
    match pdf.getPage validPageNum with
    | none => (none, 0)
    | some raster =>
      if ctxOk then (some raster, totalPages) else (none, totalPages)

/-! ## Result-envelope extraction (`getResultData`) -/

/-- One element of the `results` array of a raw payload: either wrapped as
`{ res: data }` or the page data directly.  The JS code distinguishes the
two by the truthiness of the element's `res` field. -/
inductive PageEntry (α : Type) where
  | withRes (r : α)
  | bare (v : α)
deriving Repr, DecidableEq

/-- How the source consumes one `results` element: `pageResult.res` when
truthy, else `pageResult` itself. -/
def PageEntry.unwrap {α : Type} : PageEntry α → α
  | .withRes r => r
  | .bare v => v

/-- The raw result payload attached to a completed job, as far as
`getResultData` inspects it: an optional top-level `res` and an optional
`results` array. -/
structure RawResult (α : Type) where
  res : Option α
  results : Option (List (PageEntry α))
deriving Repr, DecidableEq

/-- `getResultData()` for a job whose `result` is `raw`, with the current
(1-based) PDF page `currentPage`.  Mirrors the source: format 1 returns
`result.res`; formats 2 and 3 pick `results[currentPdfPage - 1]` with
fallback `|| results[0]`, then unwrap via `res` when present; otherwise
`null`. -/
def getResultData {α : Type} (raw : RawResult α) (currentPage : Nat) : Option α :=
  match raw.res with
  | some r => some r
  | none =>
    match raw.results with
    | some rs =>
      if rs.length > 0 then
        let pageIndex := currentPage - 1
        match rs[pageIndex]? with
        | some pageResult => some pageResult.unwrap
        | none => rs[0]?.map PageEntry.unwrap
      else none
    | none => none

/-! ## Polling step (`pollJobStatus`) -/

/-- Outcome of one poll request as the `catch`/branching of
`pollJobStatus` distinguishes it: a terminal `completed` response carrying
the raw result, a terminal `failed` response with an optional error
message, any other (non-terminal) status, or a thrown error (network
failure or a non-ok HTTP response). -/
inductive PollResponse (α : Type) where
  | completed (result : α)
  | failed (error : Option String)
  | pending
  | netError
deriving Repr, DecidableEq

/-- What one invocation of `pollJobStatus` does after its fetch resolves:
the optional update applied to the job (status, and the result for the
completed branch) and the delay of the single `setTimeout` it schedules,
`none` when no further poll is scheduled. -/
structure PollStep (α : Type) where
  newStatus : Option String
  attachedResult : Option α
  scheduleDelayMs : Option Nat
deriving Repr, DecidableEq

/-- The branch structure of `pollJobStatus`: `completed` and `failed`
update the job and schedule nothing; any other status schedules exactly
one `setTimeout(..., 3000)`; a thrown error schedules exactly one
`setTimeout(..., 5000)`. -/
def pollJobStep {α : Type} : PollResponse α → PollStep α
  | .completed r =>
    { newStatus := some "completed", attachedResult := some r, scheduleDelayMs := none }
  | .failed _ =>
    { newStatus := some "failed", attachedResult := none, scheduleDelayMs := none }
  | .pending =>
    { newStatus := none, attachedResult := none, scheduleDelayMs := some 3000 }
  | .netError =>
    { newStatus := none, attachedResult := none, scheduleDelayMs := some 5000 }

/-- The chain of polls induced by a sequence of responses: each scheduled
timer fires and runs `pollJobStatus` on the next response; the chain stops
at the first response that schedules nothing.  Returns the list of delays
of the timers actually scheduled. -/
def pollTrace {α : Type} : List (PollResponse α) → List Nat
  | [] => []
  | r :: rs =>
    match (pollJobStep r).scheduleDelayMs with
    | none => []
    | some d => d :: pollTrace rs

/-! ## Result shapes and overlay geometry (`renderResultStep`) -/

/-- One parsed block of a structured result (`parsing_res_list` element). -/
structure OcrBlock where
  block_label : String
  block_content : String
  block_bbox : Rat × Rat × Rat × Rat
  block_id : Int
  block_order : Option Int
  group_id : Int
deriving Repr, DecidableEq, Inhabited

/-- A structured (PP-StructureV3 / PaddleOCR-VL) page result: reported
page dimensions plus the block list. -/
structure OcrStructureResultData where
  width : Rat
  height : Rat
  parsing_res_list : List OcrBlock
deriving Repr, DecidableEq

/-- A flat-recognition (PP-OCRv5) page result: parallel arrays of
recognized texts, boxes and confidence scores. -/
structure OcrV5ResultData where
  rec_texts : List String
  rec_boxes : List (Rat × Rat × Rat × Rat)
  rec_scores : List Rat
deriving Repr, DecidableEq

/-- Modelled from the spec: `getV5Bbox` is imported from the result-type
module, but the revision of that module holding it is not part of this
snapshot.  Per the spec, a flat-recognition result carries
`rec_boxes = [[x1,y1,x2,y2],...]` parallel to `rec_texts`, the box of item
`idx` being the idx-th entry, with the all-zero box standing for an item
that has no detection available. -/
def getV5Bbox (data : OcrV5ResultData) (idx : Nat) : Rat × Rat × Rat × Rat :=
  data.rec_boxes.getD idx (0, 0, 0, 0)

/-- The loaded `<img>` element the overlays are positioned over: its
displayed (client) size and its natural (intrinsic) pixel size. -/
structure ImageEl where
  clientWidth : Rat
  clientHeight : Rat
  naturalWidth : Rat
  naturalHeight : Rat
deriving Repr, DecidableEq

/-- An absolutely positioned overlay rectangle (the inline style of one
`block-overlay` div). -/
structure OverlayRect where
  left : Rat
  top : Rat
  width : Rat
  height : Rat
deriving Repr, DecidableEq

/-- One iteration of the structured-shape overlay loop: destructure
`block.block_bbox`, return `null` when the payload's reported dimensions
are falsy (zero), else scale by displayed size over reported page size.
There is no degenerate-box check in this branch of the source. -/
def structuredOverlayAt (structData : OcrStructureResultData) (imageEl : ImageEl)
    (block : OcrBlock) : Option OverlayRect :=
  match block.block_bbox with
  | (x1, y1, x2, y2) =>
    if structData.width = 0 ∨ structData.height = 0 then none
    else
      let scaleX := imageEl.clientWidth / structData.width
      let scaleY := imageEl.clientHeight / structData.height
      some { left := x1 * scaleX, top := y1 * scaleY,
             width := (x2 - x1) * scaleX, height := (y2 - y1) * scaleY }

/-- The rendered overlay rectangles of the structured branch
(`blocks.map (...)`, the `null` returns dropped by the renderer). -/
def structuredOverlays (structData : OcrStructureResultData) (imageEl : ImageEl) :
    List OverlayRect :=
  structData.parsing_res_list.filterMap (structuredOverlayAt structData imageEl)

/-- One iteration of the PP-OCRv5 overlay loop: skip the item when its box
is exactly `(0,0,0,0)`, return `null` when the image element's natural
dimensions are falsy, else scale by displayed size over natural size. -/
def v5OverlayAt (v5Data : OcrV5ResultData) (imageEl : ImageEl) (idx : Nat) :
    Option OverlayRect :=
  match getV5Bbox v5Data idx with
  | (x1, y1, x2, y2) =>
    if x1 = 0 ∧ y1 = 0 ∧ x2 = 0 ∧ y2 = 0 then none
    else if imageEl.naturalWidth = 0 ∨ imageEl.naturalHeight = 0 then none
    else
      let scaleX := imageEl.clientWidth / imageEl.naturalWidth
      let scaleY := imageEl.clientHeight / imageEl.naturalHeight
      some { left := x1 * scaleX, top := y1 * scaleY,
             width := (x2 - x1) * scaleX, height := (y2 - y1) * scaleY }

/-- The rendered overlay rectangles of the PP-OCRv5 branch
(`v5Data.rec_texts.map ((_, idx) => ...)`, `null` returns dropped). -/
def v5Overlays (v5Data : OcrV5ResultData) (imageEl : ImageEl) : List OverlayRect :=
  (List.range v5Data.rec_texts.length).filterMap (v5OverlayAt v5Data imageEl)

/-! ## Job list and its operations (`AppLayout` context, `fetchJobs`) -/

/-- Job status as the frontend tracks it. -/
inductive JobStatus where
  | processing
  | completed
  | failed
deriving Repr, DecidableEq

/-- One entry of the session's job list, with the fields the claims are
about (`α` is the opaque raw result payload type). -/
structure OcrJob (α : Type) where
  id : String
  filename : String
  status : JobStatus
  result : Option α
  s3Key : Option String
  processingTimeMs : Option Nat
deriving Repr, DecidableEq

/-- A `Partial<OcrJob>` as passed to `updateJob`: each `some` field is a
key present in the update object. -/
structure JobUpdate (α : Type) where
  status : Option JobStatus := none
  result : Option α := none
  s3Key : Option String := none
  processingTimeMs : Option (Option Nat) := none
deriving Repr

/-- The spread `{ ...job, ...updates }`: keys present in `updates`
overwrite the job's fields. -/
def applyJobUpdate {α : Type} (job : OcrJob α) (u : JobUpdate α) : OcrJob α :=
  { job with
    status := u.status.getD job.status
    result := match u.result with | some r => some r | none => job.result
    s3Key := match u.s3Key with | some k => some k | none => job.s3Key
    processingTimeMs := (u.processingTimeMs).getD job.processingTimeMs }

/-- `addJob`: prepends the new job to the list. -/
def addJob {α : Type} (jobs : List (OcrJob α)) (job : OcrJob α) : List (OcrJob α) :=
  job :: jobs

/-- `updateJob`: maps over the list, merging the update into every job
whose id matches (a no-op when no job has that id). -/
def updateJob {α : Type} (jobs : List (OcrJob α)) (id : String) (u : JobUpdate α) :
    List (OcrJob α) :=
  jobs.map (fun job => if job.id = id then applyJobUpdate job u else job)

/-- `replaceJobId`: renames a job in place. -/
def replaceJobId {α : Type} (jobs : List (OcrJob α)) (oldId newId : String) :
    List (OcrJob α) :=
  jobs.map (fun job => if job.id = oldId then { job with id := newId } else job)

/-- The update the `completed` branch of `pollJobStatus` applies:
`updateJob(jobId, { status: 'completed', result: data.result,
processingTimeMs })`. -/
def pollCompletedUpdate {α : Type} (r : α) (t : Option Nat) : JobUpdate α :=
  { status := some JobStatus.completed, result := some r,
    processingTimeMs := some t }

/-- One record of the job-listing API response consumed by `fetchJobs`. -/
structure ServerJob where
  id : String
  filename : String
  s3Key : String
  status : JobStatus
deriving Repr, DecidableEq

/-- The mapping `fetchJobs` applies to the server listing before calling
`setJobs`: id, filename, s3Key and status are copied; no `result` field is
produced, whatever the status. -/
def fetchJobsMap {α : Type} (serverJobs : List ServerJob) : List (OcrJob α) :=
  serverJobs.map (fun job =>
    { id := job.id, filename := job.filename, status := job.status,
      result := none, s3Key := some job.s3Key, processingTimeMs := none })

/-! ## Submission flow (`handleSubmit`) -/

/-- Outcomes of the network calls `handleSubmit` performs, in order: the
upload-URL request (`POST /upload`, returning `s3_key`), the object-store
write (`PUT` to the signed URL), and the OCR submission (`POST /ocr`,
returning `job_id`).  `apiUrlOk` is whether an API URL is configured. -/
structure SubmitEnv where
  apiUrlOk : Bool
  uploadUrlOk : Bool
  s3Key : String
  s3PutOk : Bool
  ocrSubmitOk : Bool
  backendJobId : String
deriving Repr, DecidableEq

/-- Observable outcome of one `handleSubmit` run: the job list afterwards,
which requests were actually issued, whether polling was started (and for
which id), and whether the failure alert was shown. -/
structure SubmitResult (α : Type) where
  jobs : List (OcrJob α)
  uploadUrlRequested : Bool
  s3PutAttempted : Bool
  ocrSubmitAttempted : Bool
  pollStarted : Option String
  alerted : Bool

/-- The update the `catch` block of `handleSubmit` applies:
`updateJob(jobId, { status: 'failed' })`. -/
def failedUpdate {α : Type} : JobUpdate α := { status := some JobStatus.failed }

/-- `handleSubmit`, given the outcomes of its calls.  The job record is
created and added only after the S3 `PUT` succeeds; any thrown error lands
in the `catch`, which marks `jobId` failed (a no-op when the job was never
added) and alerts.  On full success the local id is replaced by the
backend id, the s3Key is (re)attached, and polling starts. -/
def handleSubmit {α : Type} (env : SubmitEnv) (jobs0 : List (OcrJob α))
    (jobId filename : String) : SubmitResult α :=
  if !env.apiUrlOk then
    { jobs := updateJob jobs0 jobId failedUpdate, uploadUrlRequested := false,
      s3PutAttempted := false, ocrSubmitAttempted := false,
      pollStarted := none, alerted := true }
  else if !env.uploadUrlOk then
    { jobs := updateJob jobs0 jobId failedUpdate, uploadUrlRequested := true,
      s3PutAttempted := false, ocrSubmitAttempted := false,
      pollStarted := none, alerted := true }
  else if !env.s3PutOk then
    { jobs := updateJob jobs0 jobId failedUpdate, uploadUrlRequested := true,
      s3PutAttempted := true, ocrSubmitAttempted := false,
      pollStarted := none, alerted := true }
  else
    let newJob : OcrJob α :=
      { id := jobId, filename := filename, status := JobStatus.processing,
        result := none, s3Key := some env.s3Key, processingTimeMs := none }
    let jobs1 := addJob jobs0 newJob
    if !env.ocrSubmitOk then
      { jobs := updateJob jobs1 jobId failedUpdate, uploadUrlRequested := true,
        s3PutAttempted := true, ocrSubmitAttempted := true,
        pollStarted := none, alerted := true }
    else
      let jobs2 := replaceJobId jobs1 jobId env.backendJobId
      let jobs3 := updateJob jobs2 env.backendJobId { s3Key := some env.s3Key }
      { jobs := jobs3, uploadUrlRequested := true,
        s3PutAttempted := true, ocrSubmitAttempted := true,
        pollStarted := some env.backendJobId, alerted := false }

/-- The guard opening `handleSubmit`: `if (!imageData) return;` — with no
image data read, nothing at all happens. -/
def handleSubmitGate {α : Type} (imageData : Option String) (env : SubmitEnv)
    (jobs0 : List (OcrJob α)) (jobId filename : String) : SubmitResult α :=
  match imageData with
  | none =>
    { jobs := jobs0, uploadUrlRequested := false, s3PutAttempted := false,
      ocrSubmitAttempted := false, pollStarted := none, alerted := false }
  | some _ => handleSubmit env jobs0 jobId filename

/-! ## Poll timers of the page component (`pollTimeoutRef`) -/

/-- The scheduling state of the page component: the set of pending
`setTimeout` callbacks (timer id paired with the job id the callback will
poll), the single `pollTimeoutRef` cell, and a fresh-timer counter. -/
structure TimerSys where
  scheduled : List (Nat × String)
  pollTimeoutRef : Option Nat
  nextId : Nat
deriving Repr, DecidableEq

/-- `pollTimeoutRef.current = setTimeout(() => pollJobStatus(jobId), ...)`:
a new timer is scheduled and the ref cell is overwritten with its handle.
No `clearTimeout` happens here. -/
def setPollTimeout (s : TimerSys) (jobId : String) : TimerSys :=
  { scheduled := s.scheduled ++ [(s.nextId, jobId)],
    pollTimeoutRef := some s.nextId,
    nextId := s.nextId + 1 }

/-- The unmount cleanup: `clearTimeout(pollTimeoutRef.current)` followed by
`pollTimeoutRef.current = null`. -/
def clearPollTimeout (s : TimerSys) : TimerSys :=
  match s.pollTimeoutRef with
  | none => s
  | some t =>
    { scheduled := s.scheduled.filter (fun p => p.1 ≠ t),
      pollTimeoutRef := none, nextId := s.nextId }

/-- One invocation of `pollJobStatus(jobId)` whose fetch resolves to
`resp`: exactly the scheduling effect of `pollJobStep` (terminal responses
schedule nothing, others schedule one timer), with no cancellation of any
outstanding timer. -/
def pollCycle {α : Type} (s : TimerSys) (jobId : String) (resp : PollResponse α) :
    TimerSys :=
  match (pollJobStep resp).scheduleDelayMs with
  | none => s
  | some _ => setPollTimeout s jobId

/-- A scheduled timer fires: it is removed from the pending set and its
callback runs `pollJobStatus` for its job id. -/
def timerFire {α : Type} (s : TimerSys) (t : Nat) (jobId : String)
    (resp : PollResponse α) : TimerSys :=
  pollCycle { s with scheduled := s.scheduled.filter (fun p => p.1 ≠ t) } jobId resp

/-- The timers of `s` pending for a given job id. -/
def timersFor (s : TimerSys) (jobId : String) : List (Nat × String) :=
  s.scheduled.filter (fun p => p.2 = jobId)

/-! ## Interval scheduling of the `useOcrResult` hook -/

/-- The scheduling state of the `useOcrResult` hook: pending `setInterval`
handles and the `intervalRef` cell. -/
structure IntervalSys where
  intervals : List Nat
  intervalRef : Option Nat
  nextId : Nat
deriving Repr, DecidableEq

/-- `stopPolling`: clears the interval held in `intervalRef` (if any) and
nulls the ref. -/
def stopPolling (s : IntervalSys) : IntervalSys :=
  match s.intervalRef with
  | none => s
  | some t =>
    { intervals := s.intervals.filter (fun u => u ≠ t),
      intervalRef := none, nextId := s.nextId }

/-- `startPolling`: calls `stopPolling()` first, then registers a fresh
interval and stores its handle in `intervalRef`. -/
def startPolling (s : IntervalSys) : IntervalSys :=
  let s1 := stopPolling s
  { intervals := s1.intervals ++ [s1.nextId],
    intervalRef := some s1.nextId,
    nextId := s1.nextId + 1 }

/-- The hook's scheduling invariant: at most one live interval, and any
live interval is the one `intervalRef` holds. -/
def hookInv (s : IntervalSys) : Prop :=
  s.intervals.length ≤ 1 ∧ ∀ t ∈ s.intervals, s.intervalRef = some t

/-! ## File selection (`handleFileSelect`, `MAX_FILE_SIZE`) -/

/-- `MAX_FILE_SIZE`: 100 MB. -/
def MAX_FILE_SIZE : Nat := 100 * 1024 * 1024

/-- A selected file as far as `handleFileSelect` inspects it. -/
structure SelectedFile where
  name : String
  size : Nat
  isPdf : Bool
deriving Repr, DecidableEq

/-- The page state `handleFileSelect` touches, plus whether a PDF render
was attempted. -/
structure FileSelState where
  imageData : Option String
  previewUrl : Option String
  stepIsOptions : Bool
  renderAttempted : Bool
deriving Repr, DecidableEq

/-- `handleFileSelect`: rejects oversized files with an alert before
anything else; otherwise reads the file, renders a PDF preview when
applicable, and moves to the options step.  `pdfRenderOk` is the outcome
of `renderPdfToImage` for the PDF branch; `dataUrl` stands for the base64
payload read from the file. -/
def handleFileSelect (st : FileSelState) (file : SelectedFile)
    (pdfRenderOk : Bool) (dataUrl : String) : FileSelState :=
  if file.size > MAX_FILE_SIZE then st
  else if file.isPdf then
    if pdfRenderOk then
      { imageData := some dataUrl, previewUrl := some dataUrl,
        stepIsOptions := true, renderAttempted := true }
    else { st with renderAttempted := true }
  else
    { imageData := some dataUrl, previewUrl := some dataUrl,
      stepIsOptions := true, renderAttempted := st.renderAttempted }

/-! ## Group-wise line redistribution (`renderBlocksView`) -/

/-- The whitespace characters `String.prototype.trim` strips (the ASCII
ones; the inputs here contain only spaces and newlines). -/
def isWsChar (c : Char) : Bool :=
  c = ' ' || c = '\n' || c = '\t' || c = '\r'

/-- The emptiness test the source uses throughout:
`!block_content || block_content.trim() === ''` (and its negation for the
populated test `block_content && block_content.trim() !== ''`).  A string
trims to the empty string exactly when all its characters are whitespace. -/
def isBlank (s : String) : Bool := s.data.all isWsChar

/-- `content.split('\n')` on the underlying character list: splitting on
every newline, keeping empty segments, as the JS `split` does. -/
def splitNlChars : List Char → List (List Char)
  | [] => [[]]
  | c :: cs =>
    let r := splitNlChars cs
    if c = '\n' then [] :: r
    else
      match r with
      | [] => [[c]]
      | h :: t => (c :: h) :: t

/-- `content.split('\n').filter((l) => l.trim())`: the non-blank lines of
a block's content. -/
def nonBlankLines (s : String) : List String :=
  ((splitNlChars s.data).map List.asString).filter (fun l => !isBlank l)

/-- The index list `groupMap.get(g)`: positions (in document order) of the
blocks sharing group id `g`.  Built from the unmodified input list, as in
the source. -/
def groupIndices (blocks : List OcrBlock) (g : Int) : List Nat :=
  (List.range blocks.length).filter
    (fun i => (blocks.getD i default).group_id = g)

/-- The iteration order of `groupMap.forEach`: a JS `Map` iterates its
keys in insertion order, i.e. by first occurrence of each group id. -/
def insertionOrderGroups (blocks : List OcrBlock) : List Int :=
  blocks.foldl
    (fun acc b => if b.group_id ∈ acc then acc else acc ++ [b.group_id]) []

/-- The assignment loop `lines.slice(1).forEach((line, i) => ...)` zipped
with `emptyIndices`: writes each line into the block at its paired index
(the spread `{ ...block, block_content: line }`). -/
def assignLines (a : List OcrBlock) (pairs : List (String × Nat)) : List OcrBlock :=
  pairs.foldl
    (fun acc p => acc.set p.2 { acc.getD p.2 default with block_content := p.1 }) a

/-- The body of `groupMap.forEach` for one group: skip singleton groups;
find the first populated block; split its content into non-blank lines;
when there are at least two lines and at least one empty sibling, keep the
first line on the populated block and assign the remaining lines, in
order, to the empty siblings in index order. -/
def distributeGroup (a : List OcrBlock) (indices : List Nat) : List OcrBlock :=
  if indices.length ≤ 1 then a
  else
    match indices.find? (fun i => !isBlank (a.getD i default).block_content) with
    | none => a
    | some iw =>
      let contentBlock := a.getD iw default
      let lines := nonBlankLines contentBlock.block_content
      if lines.length > 1 then
        let emptyIndices := indices.filter
          (fun i => i ≠ iw && isBlank (a.getD i default).block_content)
        if emptyIndices.length > 0 then
          let a1 := a.set iw { contentBlock with block_content := lines.getD 0 "" }
          assignLines a1 ((lines.drop 1).zip emptyIndices)
        else a
      else a

/-- The whole redistribution pass of `renderBlocksView`: group the block
indices by `group_id`, then run the per-group distribution over the
groups in insertion order. -/
def distributeBlocks (blocks : List OcrBlock) : List OcrBlock :=
  (insertionOrderGroups blocks).foldl
    (fun acc g => distributeGroup acc (groupIndices blocks g)) blocks

/-- Labels of inherently visual blocks that are kept even without text. -/
def visualBlockTypes : List String :=
  ["image", "picture", "figure", "chart", "seal", "stamp"]

/-- The final filter of `renderBlocksView`: keep blocks with non-blank
content, plus visual blocks regardless of content. -/
def filterRenderBlocks (blocks : List OcrBlock) : List OcrBlock :=
  blocks.filter
    (fun b => !isBlank b.block_content || visualBlockTypes.contains b.block_label)

/-! ## Helper lemmas -/

theorem updateJob_of_absent {α : Type} (jobs : List (OcrJob α)) (id : String)
    (u : JobUpdate α) (h : ∀ j ∈ jobs, j.id ≠ id) : updateJob jobs id u = jobs := by
  unfold updateJob
  induction jobs with
  | nil => rfl
  | cons j js ih =>
    have hj : j.id ≠ id := h j (List.mem_cons_self ..)
    simp only [List.map_cons, if_neg hj]
    rw [ih (fun j' hj' => h j' (List.mem_cons_of_mem _ hj'))]

theorem stopPolling_clears (s : IntervalSys) (h : hookInv s) :
    (stopPolling s).intervals = [] ∧ (stopPolling s).intervalRef = none := by
  obtain ⟨hlen, href⟩ := h
  unfold stopPolling
  cases hr : s.intervalRef with
  | none =>
    have : s.intervals = [] := by
      apply List.eq_nil_iff_forall_not_mem.mpr
      intro t ht
      have := href t ht
      rw [hr] at this
      exact Option.noConfusion this
    simp [this, hr]
  | some t =>
    constructor
    · apply List.filter_eq_nil_iff.mpr
      intro u hu
      have := href u hu
      rw [hr] at this
      simp at this ⊢
      exact this.symm
    · rfl

theorem getD_set_self {α : Type} [Inhabited α] (l : List α) (i : Nat) (v : α)
    (h : i < l.length) : (l.set i v).getD i default = v := by
  simp [List.getD, List.getElem?_set_self, h]

theorem getD_set_ne {α : Type} [Inhabited α] (l : List α) (i j : Nat) (v : α)
    (h : i ≠ j) : (l.set i v).getD j default = l.getD j default := by
  simp [List.getD, List.getElem?_set_ne h]

theorem assignLines_length (a : List OcrBlock) (ps : List (String × Nat)) :
    (assignLines a ps).length = a.length := by
  induction ps generalizing a with
  | nil => rfl
  | cons p ps ih =>
    show (assignLines (a.set p.2 _) ps).length = a.length
    rw [ih, List.length_set]

theorem getD_assignLines_not_mem (a : List OcrBlock) (ps : List (String × Nat))
    (i : Nat) (h : i ∉ ps.map Prod.snd) :
    (assignLines a ps).getD i default = a.getD i default := by
  induction ps generalizing a with
  | nil => rfl
  | cons p ps ih =>
    simp only [List.map_cons, List.mem_cons, not_or] at h
    show (assignLines (a.set p.2 _) ps).getD i default = a.getD i default
    rw [ih _ h.2, getD_set_ne _ _ _ _ (fun he => h.1 he.symm)]

theorem getD_assignLines_mem (a : List OcrBlock) (ps : List (String × Nat))
    (h : (ps.map Prod.snd).Nodup) (k : Nat) (hk : k < ps.length)
    (hlt : (ps[k]).2 < a.length) :
    (assignLines a ps).getD (ps[k]).2 default =
      { a.getD (ps[k]).2 default with block_content := (ps[k]).1 } := by
  induction ps generalizing a k with
  | nil => exact absurd hk (Nat.not_lt_zero k)
  | cons p ps ih =>
    simp only [List.map_cons, List.nodup_cons] at h
    cases k with
    | zero =>
      simp only [List.getElem_cons_zero] at hlt ⊢
      show (assignLines (a.set p.2 _) ps).getD p.2 default = _
      rw [getD_assignLines_not_mem _ _ _ h.1,
        getD_set_self _ _ _ hlt]
    | succ k =>
      have hk' : k < ps.length := Nat.lt_of_succ_lt_succ hk
      have hin : (ps[k]).2 ∈ ps.map Prod.snd := by
        exact List.mem_map.mpr ⟨ps[k], List.getElem_mem hk', rfl⟩
      have hne : p.2 ≠ (ps[k]).2 := fun he => h.1 (he ▸ hin)
      simp only [List.getElem_cons_succ] at hlt ⊢
      show (assignLines (a.set p.2 _) ps).getD (ps[k]).2 default = _
      rw [ih _ h.2 k hk' (by rw [List.length_set]; exact hlt),
        getD_set_ne _ _ _ _ hne]

theorem map_snd_zip_eq_take {α β : Type} (l1 : List α) (l2 : List β) :
    (l1.zip l2).map Prod.snd = l2.take l1.length := by
  induction l1 generalizing l2 with
  | nil => simp
  | cons x l1 ih =>
    cases l2 with
    | nil => simp
    | cons y l2 => simp [ih]

theorem getElem_not_mem_take {α : Type} (l : List α) (h : l.Nodup) (k n : Nat)
    (hk : k < l.length) (hn : n ≤ k) : l[k] ∉ l.take n := by
  intro hmem
  obtain ⟨m, hm, hme⟩ := List.mem_iff_getElem.mp hmem
  have hmn : m < n := Nat.lt_of_lt_of_le hm (by simp [List.length_take])
  have hml : m < l.length := Nat.lt_of_lt_of_le (Nat.lt_of_lt_of_le hmn hn) (Nat.le_of_lt hk)
  rw [List.getElem_take] at hme
  have := h.getElem_inj_iff.mp hme
  omega

theorem insertionOrderGroups_const (blocks : List OcrBlock) (g : Int)
    (hg : ∀ b ∈ blocks, b.group_id = g) (hne : blocks ≠ []) :
    insertionOrderGroups blocks = [g] := by
  have aux : ∀ (bs : List OcrBlock), (∀ b ∈ bs, b.group_id = g) →
      bs.foldl (fun acc b => if b.group_id ∈ acc then acc else acc ++ [b.group_id])
        [g] = [g] := by
    intro bs
    induction bs with
    | nil => intro _; rfl
    | cons b bs ih =>
      intro hb
      have hbg : b.group_id = g := hb b (List.mem_cons_self ..)
      simp only [List.foldl_cons, hbg, List.mem_singleton, if_pos rfl]
      exact ih (fun b' hb' => hb b' (List.mem_cons_of_mem _ hb'))
  cases blocks with
  | nil => exact absurd rfl hne
  | cons b bs =>
    have hbg : b.group_id = g := hg b (List.mem_cons_self ..)
    unfold insertionOrderGroups
    simp only [List.foldl_cons, List.not_mem_nil, if_neg (List.not_mem_nil _),
      List.nil_append, hbg]
    exact aux bs (fun b' hb' => hg b' (List.mem_cons_of_mem _ hb'))

theorem groupIndices_const (blocks : List OcrBlock) (g : Int)
    (hg : ∀ b ∈ blocks, b.group_id = g) :
    groupIndices blocks g = List.range blocks.length := by
  unfold groupIndices
  apply List.filter_eq_self.mpr
  intro i hi
  have hlt : i < blocks.length := List.mem_range.mp hi
  have h1 : blocks[i]?.getD default = blocks[i] := by
    rw [List.getElem?_eq_getElem hlt]
    rfl
  simp [List.getD, h1, hg _ (List.getElem_mem hlt)]

theorem distributeBlocks_single_group (blocks : List OcrBlock) (g : Int)
    (hg : ∀ b ∈ blocks, b.group_id = g) (hne : blocks ≠ []) :
    distributeBlocks blocks = distributeGroup blocks (List.range blocks.length) := by
  unfold distributeBlocks
  rw [insertionOrderGroups_const blocks g hg hne]
  simp only [List.foldl_cons, List.foldl_nil]
  rw [groupIndices_const blocks g hg]

/-! ## Theorems -/

/-- C10: for every PDF document that loads successfully with at least one
page and every requested page number `n` (including `n < 1` and
`n > totalPages`), the rasterizer renders page `max 1 (min n totalPages)` —
the clamped page is always in the valid range, so out-of-range requests
never hit the throwing `getPage` — and the returned total page count
equals the document's page count. -/
theorem renderPdfToImage_clamps_page (pdf : PdfDocM) (n : Int) (ctxOk : Bool)
    (h : 1 ≤ pdf.numPages) :
    renderPdfToImage (some pdf) n ctxOk =
      ((if ctxOk then some (pdf.pageImage (max 1 (min n (pdf.numPages : Int))))
        else none), pdf.numPages) ∧
    1 ≤ max 1 (min n (pdf.numPages : Int)) ∧
    max 1 (min n (pdf.numPages : Int)) ≤ (pdf.numPages : Int) := by
  have h1 : (1 : Int) ≤ max 1 (min n (pdf.numPages : Int)) := le_max_left ..
  have h2 : max 1 (min n (pdf.numPages : Int)) ≤ (pdf.numPages : Int) :=
    max_le (by exact_mod_cast h) (min_le_right ..)
  refine ⟨?_, h1, h2⟩
  cases ctxOk <;> simp [renderPdfToImage, PdfDocM.getPage, h1, h2]

/-- Witness for C10: a three-page document, requested page 9, rendered
page 3 and reported page count 3. -/
theorem renderPdfToImage_clamps_page_witness :
    renderPdfToImage (some ⟨3, fun p => toString p⟩) 9 true =
      ((if true then
          some ((⟨3, fun p => toString p⟩ : PdfDocM).pageImage
            (max 1 (min 9 (((3 : Nat)) : Int))))
        else none), 3) ∧
    1 ≤ max 1 (min 9 (((3 : Nat)) : Int)) ∧
    max 1 (min 9 (((3 : Nat)) : Int)) ≤ (((3 : Nat)) : Int) :=
  renderPdfToImage_clamps_page ⟨3, fun p => toString p⟩ 9 true (by decide)

/-- C7: in the polling loop, a non-terminal response schedules exactly
one subsequent poll 3000 ms later, a transient poll error schedules
exactly one subsequent poll 5000 ms later, and after a `completed` or
`failed` response no further poll is ever scheduled (the induced trace of
scheduled delays is empty from that point on, whatever responses would
have followed). -/
theorem pollLoop_schedule_spec {α : Type} (r : α) (e : Option String)
    (rs : List (PollResponse α)) :
    pollTrace (.pending :: rs) = 3000 :: pollTrace rs ∧
    pollTrace (.netError :: rs) = 5000 :: pollTrace rs ∧
    pollTrace (.completed r :: rs) = [] ∧
    pollTrace (.failed e :: rs) = [] :=
  ⟨rfl, rfl, rfl, rfl⟩

/-- C2: result extraction for a completed job.  A top-level `res` value is
returned as the page result; otherwise a non-empty `results` array is
consulted: element `currentPage - 1` when in range, else element 0, the
selected element unwrapped via its `res` key when present; with neither
shape the extraction returns no result. -/
theorem getResultData_spec {α : Type} (raw : RawResult α) (p : Nat) :
    (∀ r, raw.res = some r → getResultData raw p = some r) ∧
    (raw.res = none → ∀ rs, raw.results = some rs →
      (∀ e, rs[p - 1]? = some e → getResultData raw p = some e.unwrap) ∧
      (rs ≠ [] → rs.length ≤ p - 1 →
        getResultData raw p = rs[0]?.map PageEntry.unwrap)) ∧
    (raw.res = none → (raw.results = none ∨ raw.results = some []) →
      getResultData raw p = none) := by
  obtain ⟨res, results⟩ := raw
  refine ⟨?_, ?_, ?_⟩
  · rintro r rfl
    rfl
  · rintro rfl rs rfl
    constructor
    · intro e he
      have hlt : p - 1 < rs.length := (List.getElem?_eq_some_iff.mp he).1
      have hlen : 0 < rs.length := Nat.lt_of_le_of_lt (Nat.zero_le _) hlt
      simp [getResultData, hlen, he]
    · intro hne hle
      have hnone : rs[p - 1]? = none := List.getElem?_eq_none hle
      have hlen : 0 < rs.length := List.length_pos.mpr hne
      simp [getResultData, hlen, hnone]
  · rintro rfl (rfl | rfl) <;> rfl

/-- Witness for C2: a two-element `results` array viewed at page 2 selects
the second element (unwrapping its `res`); at page 7 it falls back to the
first element; an empty payload yields no result. -/
theorem getResultData_spec_witness :
    getResultData (α := Nat) ⟨none, some [.bare 5, .withRes 8]⟩ 2 = some 8 ∧
    getResultData (α := Nat) ⟨none, some [.bare 5, .withRes 8]⟩ 7 = some 5 ∧
    getResultData (α := Nat) ⟨none, none⟩ 2 = none := by
  refine ⟨?_, ?_, ?_⟩
  · exact (((getResultData_spec (α := Nat) ⟨none, some [.bare 5, .withRes 8]⟩ 2).2.1
      rfl _ rfl).1 (.withRes 8)) (by decide)
  · exact (((getResultData_spec (α := Nat) ⟨none, some [.bare 5, .withRes 8]⟩ 7).2.1
      rfl _ rfl).2 (by decide) (by decide))
  · exact (getResultData_spec (α := Nat) ⟨none, none⟩ 2).2.2 rfl (Or.inl rfl)

/-- C9: a selected file larger than 100 MB is rejected before anything
else `handleFileSelect` does: the page state is untouched (no preview, no
image data, no render attempt, no step change), and since no image data
is set, a subsequent submission attempt issues no upload-URL request,
uploads no bytes, submits no OCR request and creates no job. -/
theorem oversized_file_rejected {α : Type} (st : FileSelState) (file : SelectedFile)
    (pdfRenderOk : Bool) (dataUrl : String) (env : SubmitEnv)
    (jobs : List (OcrJob α)) (jobId filename : String)
    (hsize : file.size > MAX_FILE_SIZE) :
    handleFileSelect st file pdfRenderOk dataUrl = st ∧
    (st.imageData = none →
      (handleSubmitGate (α := α) (handleFileSelect st file pdfRenderOk dataUrl).imageData
          env jobs jobId filename).jobs = jobs ∧
      (handleSubmitGate (α := α) (handleFileSelect st file pdfRenderOk dataUrl).imageData
          env jobs jobId filename).uploadUrlRequested = false ∧
      (handleSubmitGate (α := α) (handleFileSelect st file pdfRenderOk dataUrl).imageData
          env jobs jobId filename).s3PutAttempted = false ∧
      (handleSubmitGate (α := α) (handleFileSelect st file pdfRenderOk dataUrl).imageData
          env jobs jobId filename).ocrSubmitAttempted = false ∧
      (handleSubmitGate (α := α) (handleFileSelect st file pdfRenderOk dataUrl).imageData
          env jobs jobId filename).pollStarted = none) := by
  have hsel : handleFileSelect st file pdfRenderOk dataUrl = st := by
    simp [handleFileSelect, hsize]
  refine ⟨hsel, ?_⟩
  intro hnone
  rw [hsel, hnone]
  exact ⟨rfl, rfl, rfl, rfl, rfl⟩

/-- Witness for C9: a 105 MB file against the pristine upload-step state. -/
theorem oversized_file_rejected_witness :
    handleFileSelect ⟨none, none, false, false⟩ ⟨"big.png", 105 * 1024 * 1024, false⟩
      true "d" = ⟨none, none, false, false⟩ ∧
    ((none : Option String) = none →
      (handleSubmitGate (α := Nat)
          (handleFileSelect ⟨none, none, false, false⟩
            ⟨"big.png", 105 * 1024 * 1024, false⟩ true "d").imageData
          ⟨true, true, "k", true, true, "b"⟩ [] "j" "big.png").jobs = [] ∧
      (handleSubmitGate (α := Nat)
          (handleFileSelect ⟨none, none, false, false⟩
            ⟨"big.png", 105 * 1024 * 1024, false⟩ true "d").imageData
          ⟨true, true, "k", true, true, "b"⟩ [] "j" "big.png").uploadUrlRequested = false ∧
      (handleSubmitGate (α := Nat)
          (handleFileSelect ⟨none, none, false, false⟩
            ⟨"big.png", 105 * 1024 * 1024, false⟩ true "d").imageData
          ⟨true, true, "k", true, true, "b"⟩ [] "j" "big.png").s3PutAttempted = false ∧
      (handleSubmitGate (α := Nat)
          (handleFileSelect ⟨none, none, false, false⟩
            ⟨"big.png", 105 * 1024 * 1024, false⟩ true "d").imageData
          ⟨true, true, "k", true, true, "b"⟩ [] "j" "big.png").ocrSubmitAttempted = false ∧
      (handleSubmitGate (α := Nat)
          (handleFileSelect ⟨none, none, false, false⟩
            ⟨"big.png", 105 * 1024 * 1024, false⟩ true "d").imageData
          ⟨true, true, "k", true, true, "b"⟩ [] "j" "big.png").pollStarted = none) :=
  oversized_file_rejected ⟨none, none, false, false⟩
    ⟨"big.png", 105 * 1024 * 1024, false⟩ true "d" ⟨true, true, "k", true, true, "b"⟩
    [] "j" "big.png" (by decide)

/-- Counterexample to C1: in the structured overlay branch there is no
degenerate-box check — a block whose bbox is exactly `(0,0,0,0)` produces
an overlay, namely a zero-sized rectangle.  The claim that the `(0,0,0,0)`
exclusion holds for every supported model shape is therefore false. -/
theorem degenerate_bbox_structured_rendered :
    structuredOverlays
        ⟨100, 100, [⟨"text", "x", (0, 0, 0, 0), 0, none, 0⟩]⟩
        ⟨50, 50, 200, 200⟩ =
      [⟨0, 0, 0, 0⟩] := by
  simp [structuredOverlays, structuredOverlayAt]

/-- C1 (amended): the `(0,0,0,0)` exclusion holds in the flat-recognition
(PP-OCRv5) overlay branch — an item whose box is exactly `(0,0,0,0)` is
skipped before any rectangle is built — while the structured branch has no
such check and renders a zero-sized rectangle for a degenerate bbox. -/
theorem degenerate_bbox_excluded_v5 (v5Data : OcrV5ResultData) (imageEl : ImageEl)
    (idx : Nat) (h : getV5Bbox v5Data idx = (0, 0, 0, 0)) :
    v5OverlayAt v5Data imageEl idx = none := by
  simp [v5OverlayAt, h]

/-- Witness for C1 (amended), on the spec's own flat-recognition example:
`rec_texts = ["A","B"]`, `rec_boxes = [[0,0,10,10],[0,0,0,0]]` — item 1 is
excluded and exactly one overlay (for "A") is rendered. -/
theorem degenerate_bbox_excluded_v5_witness :
    getV5Bbox ⟨["A", "B"], [(0, 0, 10, 10), (0, 0, 0, 0)], [1, 1]⟩ 1 = (0, 0, 0, 0) ∧
    v5OverlayAt ⟨["A", "B"], [(0, 0, 10, 10), (0, 0, 0, 0)], [1, 1]⟩
      ⟨50, 50, 200, 200⟩ 1 = none ∧
    (v5Overlays ⟨["A", "B"], [(0, 0, 10, 10), (0, 0, 0, 0)], [1, 1]⟩
      ⟨50, 50, 200, 200⟩).length = 1 :=
  ⟨by decide,
   degenerate_bbox_excluded_v5 ⟨["A", "B"], [(0, 0, 10, 10), (0, 0, 0, 0)], [1, 1]⟩
     ⟨50, 50, 200, 200⟩ 1 (by decide),
   by decide⟩

/-- C8: for every block bbox and loaded image element, the overlay
rectangle is `left = x1·scaleX`, `top = y1·scaleY`,
`width = (x2-x1)·scaleX`, `height = (y2-y1)·scaleY`, where the scales are
displayed size over the payload's reported page size for structured
results and displayed size over the image's natural size for
flat-recognition results. -/
theorem overlay_geometry_spec (structData : OcrStructureResultData)
    (v5Data : OcrV5ResultData) (imageEl : ImageEl) (block : OcrBlock) (idx : Nat)
    (hw : structData.width ≠ 0) (hh : structData.height ≠ 0)
    (hnw : imageEl.naturalWidth ≠ 0) (hnh : imageEl.naturalHeight ≠ 0)
    (hnd : getV5Bbox v5Data idx ≠ (0, 0, 0, 0)) :
    structuredOverlayAt structData imageEl block =
      some { left := block.block_bbox.1 * (imageEl.clientWidth / structData.width),
             top := block.block_bbox.2.1 * (imageEl.clientHeight / structData.height),
             width := (block.block_bbox.2.2.1 - block.block_bbox.1) *
               (imageEl.clientWidth / structData.width),
             height := (block.block_bbox.2.2.2 - block.block_bbox.2.1) *
               (imageEl.clientHeight / structData.height) } ∧
    v5OverlayAt v5Data imageEl idx =
      some { left := (getV5Bbox v5Data idx).1 *
               (imageEl.clientWidth / imageEl.naturalWidth),
             top := (getV5Bbox v5Data idx).2.1 *
               (imageEl.clientHeight / imageEl.naturalHeight),
             width := ((getV5Bbox v5Data idx).2.2.1 - (getV5Bbox v5Data idx).1) *
               (imageEl.clientWidth / imageEl.naturalWidth),
             height := ((getV5Bbox v5Data idx).2.2.2 - (getV5Bbox v5Data idx).2.1) *
               (imageEl.clientHeight / imageEl.naturalHeight) } := by
  constructor
  · rcases hbb : block.block_bbox with ⟨x1, y1, x2, y2⟩
    simp [structuredOverlayAt, hbb, hw, hh]
  · rcases hb : getV5Bbox v5Data idx with ⟨x1, y1, x2, y2⟩
    rw [hb] at hnd
    have hcond : ¬(x1 = 0 ∧ y1 = 0 ∧ x2 = 0 ∧ y2 = 0) := by
      intro hc
      exact hnd (by simp [hc.1, hc.2.1, hc.2.2.1, hc.2.2.2])
    simp [v5OverlayAt, hb, hcond, hnw, hnh]

/-- Witness for C8: a structured block and a flat item at concrete
dimensions. -/
theorem overlay_geometry_spec_witness :
    structuredOverlayAt ⟨100, 50, []⟩ ⟨50, 50, 200, 100⟩
        ⟨"text", "t", (10, 20, 30, 40), 0, none, 0⟩ =
      some ⟨10 * ((50 : Rat) / 100), 20 * ((50 : Rat) / 50),
            (30 - 10) * ((50 : Rat) / 100), (40 - 20) * ((50 : Rat) / 50)⟩ ∧
    v5OverlayAt ⟨["A"], [(10, 20, 30, 40)], [1]⟩ ⟨50, 50, 200, 100⟩ 0 =
      some ⟨10 * ((50 : Rat) / 200), 20 * ((50 : Rat) / 100),
            (30 - 10) * ((50 : Rat) / 200), (40 - 20) * ((50 : Rat) / 100)⟩ :=
  overlay_geometry_spec ⟨100, 50, []⟩ ⟨["A"], [(10, 20, 30, 40)], [1]⟩
    ⟨50, 50, 200, 100⟩ ⟨"text", "t", (10, 20, 30, 40), 0, none, 0⟩ 0
    (by norm_num) (by norm_num) (by norm_num) (by norm_num) (by decide)

/-- Counterexample to C5: when the object-store `PUT` fails, the job
record — which is only created after a successful upload — was never added
to the list, so the `catch`'s failed-marking updates an absent id and the
final list holds no job for this submission at any status.  The claimed
transition of the job to `failed` does not happen. -/
theorem upload_failure_no_failed_job :
    (handleSubmit (α := Nat) ⟨true, true, "k", false, true, "b1"⟩ [] "job-1" "a.png").jobs
        = [] ∧
    ¬ ∃ j ∈ (handleSubmit (α := Nat) ⟨true, true, "k", false, true, "b1"⟩
        [] "job-1" "a.png").jobs, j.status = JobStatus.failed := by
  constructor
  · rfl
  · rintro ⟨j, hj, -⟩
    simp [handleSubmit, updateJob] at hj

/-- C5 (amended): when the object-store upload fails, the submission never
reaches `processing` — the job record is never added, so the final list is
the initial one and holds no job with the submission's id (hence none with
a result) — no OCR request is attempted, polling never starts, and the
failure is surfaced via an alert; the job does not, however, appear as
`failed`: the failure handler's update targets an id absent from the
list. -/
theorem upload_failure_spec {α : Type} (env : SubmitEnv) (jobs0 : List (OcrJob α))
    (jobId filename : String)
    (happ : env.apiUrlOk = true) (hup : env.uploadUrlOk = true)
    (hputFail : env.s3PutOk = false)
    (hfresh : ∀ j ∈ jobs0, j.id ≠ jobId) :
    (handleSubmit env jobs0 jobId filename).jobs = jobs0 ∧
    (handleSubmit env jobs0 jobId filename).ocrSubmitAttempted = false ∧
    (handleSubmit env jobs0 jobId filename).pollStarted = none ∧
    (handleSubmit env jobs0 jobId filename).alerted = true ∧
    ∀ j ∈ (handleSubmit env jobs0 jobId filename).jobs, j.id ≠ jobId := by
  have hupd := updateJob_of_absent jobs0 jobId (failedUpdate (α := α)) hfresh
  simp only [handleSubmit, happ, hup, hputFail, Bool.not_true, Bool.not_false,
    Bool.false_eq_true, if_false, if_true, hupd]
  exact ⟨trivial, trivial, trivial, trivial, fun j hj => hfresh j hj⟩

/-- Witness for C5 (amended): one unrelated job in the list, upload
fails; the list is unchanged and no record for the submission exists. -/
theorem upload_failure_spec_witness :
    (handleSubmit (α := Nat) ⟨true, true, "k", false, true, "b1"⟩
        [⟨"other", "f.png", JobStatus.processing, none, none, none⟩]
        "job-1" "a.png").jobs =
      [⟨"other", "f.png", JobStatus.processing, none, none, none⟩] ∧
    (handleSubmit (α := Nat) ⟨true, true, "k", false, true, "b1"⟩
        [⟨"other", "f.png", JobStatus.processing, none, none, none⟩]
        "job-1" "a.png").ocrSubmitAttempted = false ∧
    (handleSubmit (α := Nat) ⟨true, true, "k", false, true, "b1"⟩
        [⟨"other", "f.png", JobStatus.processing, none, none, none⟩]
        "job-1" "a.png").pollStarted = none ∧
    (handleSubmit (α := Nat) ⟨true, true, "k", false, true, "b1"⟩
        [⟨"other", "f.png", JobStatus.processing, none, none, none⟩]
        "job-1" "a.png").alerted = true ∧
    ∀ j ∈ (handleSubmit (α := Nat) ⟨true, true, "k", false, true, "b1"⟩
        [⟨"other", "f.png", JobStatus.processing, none, none, none⟩]
        "job-1" "a.png").jobs, j.id ≠ "job-1" :=
  upload_failure_spec ⟨true, true, "k", false, true, "b1"⟩
    [⟨"other", "f.png", JobStatus.processing, none, none, none⟩]
    "job-1" "a.png" rfl rfl rfl (by decide)

/-- Counterexample to C6: resynchronization from the server listing maps a
server job with status `completed` to a list entry with no `result` — a
reachable job-list state containing a completed job without a result. -/
theorem resync_completed_without_result :
    fetchJobsMap (α := Nat) [⟨"s1", "a.png", "k", JobStatus.completed⟩] =
      [{ id := "s1", filename := "a.png", status := JobStatus.completed,
         result := none, s3Key := some "k", processingTimeMs := none }] ∧
    ∃ j ∈ fetchJobsMap (α := Nat) [⟨"s1", "a.png", "k", JobStatus.completed⟩],
      j.status = JobStatus.completed ∧ j.result = none := by
  decide

/-- C6 (amended): a job completed through the polling path carries exactly
one result, attached in the same update as the `completed` status, and
jobs untouched by that update are the original list entries; jobs produced
by resynchronization from the server listing, however, never carry a
result — even when their server-reported status is `completed` (the result
is fetched lazily upon selection) — so the claimed invariant fails at
resynchronization. -/
theorem job_result_invariant_spec {α : Type} (serverJobs : List ServerJob)
    (jobs : List (OcrJob α)) (id : String) (r : α) (t : Option Nat) :
    (∀ j ∈ fetchJobsMap (α := α) serverJobs, j.result = none) ∧
    (∀ j ∈ updateJob jobs id (pollCompletedUpdate r t),
      j.id = id → j.status = JobStatus.completed ∧ j.result = some r) ∧
    (∀ j ∈ updateJob jobs id (pollCompletedUpdate r t), j.id ≠ id → j ∈ jobs) := by
  refine ⟨?_, ?_, ?_⟩
  · intro j hj
    obtain ⟨sj, -, rfl⟩ := List.mem_map.mp hj
    rfl
  · intro j hj hid
    obtain ⟨j0, hj0, rfl⟩ := List.mem_map.mp hj
    by_cases h : j0.id = id
    · simp only [if_pos h]
      exact ⟨rfl, rfl⟩
    · rw [if_neg h] at hid ⊢
      exact absurd hid h
  · intro j hj hid
    obtain ⟨j0, hj0, rfl⟩ := List.mem_map.mp hj
    by_cases h : j0.id = id
    · rw [if_pos h] at hid
      exact absurd h hid
    · rw [if_neg h]
      exact hj0

/-- Witness for C6 (amended): a poll completion attaches status and
result together; a resynced completed job has none. -/
theorem job_result_invariant_spec_witness :
    (∀ j ∈ fetchJobsMap (α := Nat) [⟨"s1", "a.png", "k", JobStatus.completed⟩],
      j.result = none) ∧
    (∀ j ∈ updateJob (α := Nat)
        [⟨"b1", "a.png", JobStatus.processing, none, some "k", none⟩]
        "b1" (pollCompletedUpdate 7 (some 1200)),
      j.id = "b1" → j.status = JobStatus.completed ∧ j.result = some 7) ∧
    (∀ j ∈ updateJob (α := Nat)
        [⟨"b1", "a.png", JobStatus.processing, none, some "k", none⟩]
        "b1" (pollCompletedUpdate 7 (some 1200)),
      j.id ≠ "b1" →
      j ∈ [⟨"b1", "a.png", JobStatus.processing, none, some "k", none⟩]) :=
  job_result_invariant_spec [⟨"s1", "a.png", "k", JobStatus.completed⟩]
    [⟨"b1", "a.png", JobStatus.processing, none, some "k", none⟩]
    "b1" 7 (some 1200)

/-- Counterexample to C4: `pollJobStatus` cancels nothing before
scheduling — starting a second poll cycle for job "A" while a scheduled
poll for "A" is outstanding leaves two concurrently scheduled timers for
"A" (the ref cell merely overwrites the first handle). -/
theorem duplicate_poll_timers :
    (timersFor (pollCycle (α := Nat)
        (pollCycle (α := Nat) ⟨[], none, 0⟩ "A" .pending) "A" .pending)
      "A").length = 2 := by
  decide

/-- C4 (amended): the at-most-one-timer discipline holds for the
`useOcrResult` hook, whose `startPolling` first runs `stopPolling`: from
any state satisfying the single-interval invariant, both operations
preserve it and `startPolling` leaves exactly one live interval.  The
page component's `pollJobStatus`, by contrast, does not cancel the
outstanding timer, so a second poll cycle for an id already being polled
yields two concurrently scheduled timers. -/
theorem hook_single_interval (s : IntervalSys) (h : hookInv s) :
    hookInv (startPolling s) ∧ hookInv (stopPolling s) ∧
    (startPolling s).intervals.length = 1 := by
  obtain ⟨hnil, href⟩ := stopPolling_clears s h
  refine ⟨⟨?_, ?_⟩, ⟨?_, ?_⟩, ?_⟩
  · show ((stopPolling s).intervals ++ [(stopPolling s).nextId]).length ≤ 1
    rw [hnil]
    simp
  · intro t ht
    show some (stopPolling s).nextId = some t
    have hm : t ∈ (stopPolling s).intervals ++ [(stopPolling s).nextId] := ht
    rw [hnil] at hm
    simp at hm
    rw [hm]
  · rw [hnil]
    simp
  · intro t ht
    rw [hnil] at ht
    exact absurd ht (List.not_mem_nil t)
  · show ((stopPolling s).intervals ++ [(stopPolling s).nextId]).length = 1
    rw [hnil]
    simp

/-- Witness for C4 (amended): a state holding one live interval. -/
theorem hook_single_interval_witness :
    hookInv (startPolling ⟨[5], some 5, 6⟩) ∧
    hookInv (stopPolling ⟨[5], some 5, 6⟩) ∧
    (startPolling ⟨[5], some 5, 6⟩).intervals.length = 1 :=
  hook_single_interval ⟨[5], some 5, 6⟩ (by unfold hookInv; decide)

/-- Counterexample to C3: in the group [empty, "line1\nline2", empty] (all
sharing group id 1), the first populated block has multi-line content and
the subsequent group member is empty, yet the second line is assigned to
the PRECEDING empty sibling — the subsequent empty sibling stays empty —
so post-normalization contents are ["line2", "line1", ""], not the claimed
["", "line1", "line2"]. -/
theorem group_lines_preceding_sibling :
    (distributeBlocks
        [⟨"text", "", (0, 0, 0, 0), 0, none, 1⟩,
         ⟨"text", "line1\nline2", (0, 0, 0, 0), 1, none, 1⟩,
         ⟨"text", "", (0, 0, 0, 0), 2, none, 1⟩]).map (·.block_content)
      = ["line2", "line1", ""] ∧
    (distributeBlocks
        [⟨"text", "", (0, 0, 0, 0), 0, none, 1⟩,
         ⟨"text", "line1\nline2", (0, 0, 0, 0), 1, none, 1⟩,
         ⟨"text", "", (0, 0, 0, 0), 2, none, 1⟩]).map (·.block_content)
      ≠ ["", "line1", "line2"] := by
  decide

/-- C3 (amended): for a group of two or more blocks sharing a group id —
here a block list forming one group — when the first populated block `iw`
has at least two non-blank lines and the group has empty siblings, the
normalization keeps the first line on `iw` and assigns the remaining
lines, in order, one each to the empty sibling blocks in document order,
including any empty siblings that PRECEDE the populated block (not only
subsequent ones); unconsumed empty siblings and all other blocks are left
unchanged.  In particular, for two blocks sharing a group id with contents
"line1\nline2" and "", the post-normalization contents are "line1" and
"line2". -/
theorem distributeBlocks_group_spec (blocks : List OcrBlock) (g : Int) (iw : Nat)
    (lines : List String) (empties : List Nat)
    (hg : ∀ b ∈ blocks, b.group_id = g)
    (h2 : 2 ≤ blocks.length)
    (hiw : (List.range blocks.length).find?
        (fun i => !isBlank (blocks.getD i default).block_content) = some iw)
    (hlines : lines = nonBlankLines ((blocks.getD iw default).block_content))
    (h2l : 2 ≤ lines.length)
    (hemp : empties = (List.range blocks.length).filter
        (fun i => i ≠ iw && isBlank (blocks.getD i default).block_content))
    (hne : empties ≠ []) :
    (distributeBlocks blocks).length = blocks.length ∧
    ((distributeBlocks blocks).getD iw default).block_content = lines.getD 0 "" ∧
    (∀ k, (hk : k < empties.length) → k + 1 < lines.length →
      ((distributeBlocks blocks).getD empties[k] default).block_content
        = lines.getD (k + 1) "") ∧
    (∀ k, (hk : k < empties.length) → lines.length ≤ k + 1 →
      (distributeBlocks blocks).getD empties[k] default
        = blocks.getD empties[k] default) ∧
    (∀ i, i < blocks.length → i ≠ iw → i ∉ empties →
      (distributeBlocks blocks).getD i default = blocks.getD i default) := by
  have hne0 : blocks ≠ [] := by
    intro h
    rw [h] at h2
    simp at h2
  have hdb : distributeBlocks blocks =
      assignLines
        (blocks.set iw
          { blocks.getD iw default with block_content := lines.getD 0 "" })
        ((lines.drop 1).zip empties) := by
    rw [distributeBlocks_single_group blocks g hg hne0]
    unfold distributeGroup
    rw [if_neg (by rw [List.length_range]; omega)]
    rw [hiw]
    simp only [← hlines, ← hemp]
    rw [if_pos (by omega), if_pos (List.length_pos.mpr hne)]
  set a1 := blocks.set iw
    { blocks.getD iw default with block_content := lines.getD 0 "" } with ha1
  have hiwlt : iw < blocks.length :=
    List.mem_range.mp (List.mem_of_find?_eq_some hiw)
  have ha1len : a1.length = blocks.length := List.length_set ..
  have hsnds : ((lines.drop 1).zip empties).map Prod.snd
      = empties.take (lines.length - 1) := by
    rw [map_snd_zip_eq_take, List.length_drop]
  have hnodupE : empties.Nodup := by
    rw [hemp]
    exact (List.nodup_range _).filter _
  have hnodupS : (((lines.drop 1).zip empties).map Prod.snd).Nodup := by
    rw [hsnds]
    exact (List.take_sublist _ _).nodup hnodupE
  have hEmem : ∀ i ∈ empties, i < blocks.length ∧ i ≠ iw := by
    intro i hi
    rw [hemp] at hi
    have h1 := List.mem_range.mp (List.mem_of_mem_filter hi)
    have h2' := List.of_mem_filter hi
    simp only [Bool.and_eq_true, decide_eq_true_eq] at h2'
    exact ⟨h1, h2'.1⟩
  have hsnds_sub : ∀ i ∈ ((lines.drop 1).zip empties).map Prod.snd,
      i ∈ empties := by
    intro i hi
    rw [hsnds] at hi
    exact List.mem_of_mem_take hi
  have hiw_not : iw ∉ ((lines.drop 1).zip empties).map Prod.snd := by
    intro hmem
    exact (hEmem iw (hsnds_sub iw hmem)).2 rfl
  refine ⟨?_, ?_, ?_, ?_, ?_⟩
  · rw [hdb, assignLines_length, ha1len]
  · rw [hdb, getD_assignLines_not_mem _ _ _ hiw_not, ha1,
      getD_set_self _ _ _ hiwlt]
  · intro k hk hkl
    have hkp : k < ((lines.drop 1).zip empties).length := by
      rw [List.length_zip, List.length_drop]
      omega
    have hpk : (((lines.drop 1).zip empties)[k]).2 = empties[k] := by
      rw [List.getElem_zip]
    have hkl1 : k + 1 < lines.length := by omega
    have hpk1 : (((lines.drop 1).zip empties)[k]).1 = lines[k + 1] := by
      rw [List.getElem_zip]
      simp only [List.getElem_drop]
      congr 1
      omega
    have hmem := getD_assignLines_mem a1 ((lines.drop 1).zip empties) hnodupS k hkp
      (by rw [hpk, ha1len]; exact (hEmem _ (List.getElem_mem hk)).1)
    rw [hdb, ← hpk, hmem, hpk1]
    have hne2 : iw ≠ (((lines.drop 1).zip empties)[k]).2 := by
      rw [hpk]
      exact fun he => (hEmem _ (List.getElem_mem hk)).2 he.symm
    rw [ha1, getD_set_ne _ _ _ _ hne2]
    rw [List.getD_eq_getElem _ _ (by omega : k + 1 < lines.length)]
  · intro k hk hkl
    have hnm : empties[k] ∉ ((lines.drop 1).zip empties).map Prod.snd := by
      rw [hsnds]
      exact getElem_not_mem_take empties hnodupE k _ hk (by omega)
    have hne2 : iw ≠ empties[k] :=
      fun he => (hEmem _ (List.getElem_mem hk)).2 he.symm
    rw [hdb, getD_assignLines_not_mem _ _ _ hnm, ha1,
      getD_set_ne _ _ _ _ hne2]
  · intro i hilt hine hinm
    have hnm : i ∉ ((lines.drop 1).zip empties).map Prod.snd :=
      fun hmem => hinm (hsnds_sub i hmem)
    rw [hdb, getD_assignLines_not_mem _ _ _ hnm, ha1,
      getD_set_ne _ _ _ _ (fun he => hine he.symm)]

/-- Witness for C3 (amended): the spec's concrete instance — two blocks
sharing group id 1, contents "line1\nline2" and "", normalize to "line1"
and "line2". -/
theorem distributeBlocks_group_spec_witness :
    ((distributeBlocks
        [⟨"text", "line1\nline2", (0, 0, 0, 0), 0, none, 1⟩,
         ⟨"text", "", (0, 0, 0, 0), 1, none, 1⟩]).getD 0 default).block_content
      = "line1" ∧
    ((distributeBlocks
        [⟨"text", "line1\nline2", (0, 0, 0, 0), 0, none, 1⟩,
         ⟨"text", "", (0, 0, 0, 0), 1, none, 1⟩]).getD 1 default).block_content
      = "line2" := by
  have h := distributeBlocks_group_spec
    [⟨"text", "line1\nline2", (0, 0, 0, 0), 0, none, 1⟩,
     ⟨"text", "", (0, 0, 0, 0), 1, none, 1⟩]
    1 0 ["line1", "line2"] [1]
    (by decide) (by decide) (by decide) (by decide) (by decide) (by decide) (by decide)
  exact ⟨h.2.1, h.2.2.1 0 (by decide) (by decide)⟩

end OcrLab
